import Mathlib

/-!
Verification of the rag-ai repository: a shallow embedding of the backend
configuration loader (`back-end/app/config.py`), the Chroma collection
bootstrap (`back-end/app/chroma_client.py`), the query endpoint
(`back-end/app/routers/rag.py`) and the ingestion pipeline
(`ingestion/ingest.py`, `ingestion/data_chunking.py`,
`ingestion/index_creation.py`), together with proofs of the behavioural
claims made about them.
-/

namespace RagAI

/-- The process environment as read by `config.py`: the three variables fetched
with `os.getenv`, each either absent (`none`) or present with a string value. -/
structure Env where
  deepseek_api_key : Option String
  collection_name : Option String
  persistence_dir : Option String
deriving DecidableEq, Repr

/-- Python truthiness of the result of `os.getenv`: `None` and the empty
string are falsy, every other string is truthy (`if not x:` in the source). -/
def truthy : Option String → Bool
  | none => false
  | some s => !(s == "")

/-- `ChromaConfig` dataclass of `config.py` (defaults from the source). -/
structure ChromaConfig where
  persistence_path : String := "./persistence"
  collection_name : String := "documents"
deriving DecidableEq, Repr

/-- `DeepSeekConfig` dataclass of `config.py`. -/
structure DeepSeekConfig where
  api_key : String
deriving DecidableEq, Repr

/-- `AppConfig` dataclass of `config.py`: it bundles the two sub-configs and
(besides the dataclass-generated dunder methods) defines exactly one method,
`create_config_from_env`; in particular it defines no `validate` method. -/
structure AppConfig where
  chroma : ChromaConfig
  deepseek : DeepSeekConfig
deriving DecidableEq, Repr

/-- The (non-dunder) attribute names defined on the `AppConfig` class in
`config.py`, used to model Python attribute lookup on a config instance. -/
def AppConfig.attributeNames : List String :=
  ["chroma", "deepseek", "create_config_from_env"]

/-- The Python exceptions that the modelled code can raise. -/
inductive PyError where
  | valueError (msg : String)
  | attributeError (msg : String)
deriving DecidableEq, Repr

/-- `AppConfig.create_config_from_env` (config.py lines 118-155): reads the
three environment variables, raises `ValueError` at the first one that is
absent or empty, and otherwise builds the config from exactly those values. -/
def AppConfig.create_config_from_env (env : Env) : Except PyError AppConfig :=
  let deepseek_api_key := env.deepseek_api_key
  let collection_name := env.collection_name
  let persistence_path := env.persistence_dir
  if !truthy deepseek_api_key then
    .error (.valueError "DEEPSEEK_API_KEY environment variable is required")
  else if !truthy collection_name then
    .error (.valueError "COLLECTION_NAME environment variable is required")
  else if !truthy persistence_path then
    .error (.valueError "PERSISTENCE_DIR environment variable is required")
  else
    .ok { chroma := { collection_name := collection_name.getD ""
                      persistence_path := persistence_path.getD "" }
          deepseek := { api_key := deepseek_api_key.getD "" } }

/-- `get_config` (config.py lines 217-236): builds the config via
`create_config_from_env` and then evaluates `config.validate()`.  Attribute
lookup of `validate` on the `AppConfig` instance follows Python semantics:
if the name is not among the attributes of the class, an `AttributeError`
is raised at the call site. -/
def get_config (env : Env) : Except PyError AppConfig :=
  match AppConfig.create_config_from_env env with
  | .error e => .error e
  | .ok config =>
      if "validate" ∈ AppConfig.attributeNames then
        .ok config
      else
        .error (.attributeError "AppConfig object has no attribute validate")

/-- The external Chroma persistent store, abstracted: for each persistence
path, the names of the collections that exist there. -/
structure ChromaStore where
  collectionsAt : String → List String

/-- `get_chroma_collection` (chroma_client.py lines 7-38): obtains the config
via `get_config`, opens a persistent client at the configured path, falls back
to the first listed collection when the configured name is empty, and returns
the `(path, name)` of the collection it loads; any exception propagates. -/
def get_chroma_collection (env : Env) (store : ChromaStore) :
    Except PyError (String × String) :=
  match get_config env with
  | .error e => .error e
  | .ok config =>
      let path := config.chroma.persistence_path
      let available := store.collectionsAt path
      let resolved : Except PyError String :=
        if config.chroma.collection_name == "" then
          match available with
          | [] => .error (.valueError "No collections found and COLLECTION_NAME not set")
          | n :: _ => .ok n
        else
          .ok config.chroma.collection_name
      match resolved with
      | .error e => .error e
      | .ok name =>
          if name ∈ available then
            .ok (path, name)
          else
            .error (.valueError ("Collection " ++ name ++ " does not exist."))

/-- The branch condition of the debug fallback in `get_chroma_collection`
(chroma_client.py lines 19-30): it is entered iff the configured collection
name is empty (Python string falsiness). -/
def fallbackBranchTaken (config : AppConfig) : Bool :=
  config.chroma.collection_name == ""

/-! ## The query endpoint (`back-end/app/routers/rag.py`) -/

/-- Request body of `POST /rag/query`. -/
structure QueryRequest where
  user_query : String
deriving DecidableEq, Repr

/-- Successful response body of `POST /rag/query` (rag.py lines 69-73). -/
structure RagResponse where
  answer : String
  context_snippets : List String
  model : String
deriving DecidableEq, Repr

/-- FastAPI `HTTPException` as raised in rag.py: a status code and a detail
string. -/
structure HTTPError where
  status_code : Nat
  detail : String
deriving DecidableEq, Repr

/-- The external collaborators of the endpoint: `collection.query` of the
Chroma collection, taking the query text and `n_results` and yielding the
retrieved document texts for that query (the first entry of the documents field of the query result, in the
order the index returns them) or raising; and the DeepSeek chat-completions
call, taking the system-message content and the user prompt and yielding
the answer text or raising. -/
structure QueryDeps where
  collectionQuery : String → Nat → Except String (List String)
  chatCompletion : String → String → Except String String

/-- The content of the system message sent to DeepSeek (rag.py line 58). -/
def systemMessage : String :=
  "You are a helpful assistant that provides accurate answers based on the given context."

/-- The `n_results` argument that the endpoint passes to `collection.query`
(rag.py line 37). -/
def n_results : Nat := 3

/-- The augmented prompt (rag.py lines 44-51): the f-string template with the
joined context and the user query substituted in. -/
def buildPrompt (context : String) (user_query : String) : String :=
  "Use the following context to answer the user\x27s question. If the answer is not in the context, say you don\x27t know.\n\nContext:\n"
    ++ context ++ "\n\nQuestion: " ++ user_query ++ "\n\nAnswer:"

/-- The prompt as a function of the retrieved document texts: rag.py line 39
joins the retrieved document texts with a blank line (`"\n\n".join`) before the
substitution. -/
def builtPrompt (docs : List String) (user_query : String) : String :=
  buildPrompt (String.intercalate "\n\n" docs) user_query

/-- `query_rag_system` (rag.py lines 24-73): queries the collection with
`n_results = 3`; a raised exception there becomes a 500 with detail
`"Database error: ..."`; otherwise the context is joined, the prompt built,
DeepSeek called; a raised exception there becomes a 500 with detail
`"DeepSeek API error: ..."`; otherwise the response carries the answer, the
retrieved snippets verbatim and the model name. -/
def query_rag_system (deps : QueryDeps) (request : QueryRequest) :
    Except HTTPError RagResponse :=
  let user_query := request.user_query
  match deps.collectionQuery user_query n_results with
  | .error e => .error { status_code := 500, detail := "Database error: " ++ e }
  | .ok docs =>
      let prompt := builtPrompt docs user_query
      match deps.chatCompletion systemMessage prompt with
      | .error e => .error { status_code := 500, detail := "DeepSeek API error: " ++ e }
      | .ok answer =>
          .ok { answer := answer
                context_snippets := docs
                model := "deepseek-chat" }

/-! ## Ingestion (`ingestion/ingest.py`, `data_chunking.py`, `index_creation.py`) -/

/-- The long-option names of the CLI arguments accepted by the ingestion entry
point (ingest.py lines 22-26), in declaration order. -/
def ingestCliArgs : List String :=
  ["docs-dir", "wiki-path", "hugging-face-model", "chroma-db-path", "persist-dir"]

/-- The default for the `--hugging-face-model` CLI argument (ingest.py
line 24). -/
def defaultIngestionModel : String := "BAAI/bge-small-en-v1.5"

/-- The parameters of the `SemanticSplitterNodeParser` as constructed in
`chunk_data` (data_chunking.py lines 14-18). -/
structure SplitterConfig where
  buffer_size : Nat
  breakpoint_percentile_threshold : Nat
deriving DecidableEq, Repr

/-- The splitter run that `chunk_data` (data_chunking.py lines 10-20) sets up:
the embedding model is the caller-supplied one, while `buffer_size` and
`breakpoint_percentile_threshold` are the literals `1` and `95`; `chunk_data`
has no other parameters. -/
structure SplitterRun where
  embed_model : String
  config : SplitterConfig
deriving DecidableEq, Repr

/-- `chunk_data` viewed as the configuration of the splitter it runs on the
documents: the only caller-controlled part is the embedding model name. -/
def chunk_data (model : String) : SplitterRun :=
  { embed_model := model
    config := { buffer_size := 1, breakpoint_percentile_threshold := 95 } }

/-- The collection name that `create_index` (index_creation.py line 15) always
passes to `get_or_create_collection`: the string literal `"main_database"`. -/
def ingestionCollectionName : String := "main_database"

/-- The collection name that the backend requests from Chroma, following the
resolution logic of `get_chroma_collection` (chroma_client.py lines 18-31):
the configured name, or, when that is empty, the first available collection
if any. -/
def backendRequestedCollection (config : AppConfig) (available : List String) :
    Option String :=
  if config.chroma.collection_name == "" then available.head?
  else some config.chroma.collection_name

/-! ## Embedding spaces at ingestion and at query time

`create_index` embeds the ingested nodes with
`HuggingFaceEmbedding(model_name)` — the caller-supplied model, default
`BAAI/bge-small-en-v1.5` — and stores the resulting vectors in the Chroma
collection.  Neither `get_or_create_collection` (index_creation.py line 15)
nor `get_collection` (chroma_client.py line 32) passes an
`embedding_function`, so when rag.py queries with `query_texts`
(rag.py lines 35-38), Chroma embeds the query with its *default* embedding
function, the ONNX `all-MiniLM-L6-v2` model.  Chroma validates only vector
dimensions at query time, never model identity. -/

/-- The model behind the default Chroma embedding function, applied to
`query_texts` because no `embedding_function` is supplied anywhere. -/
def chromaDefaultModel : String := "all-MiniLM-L6-v2"

/-- The embedding model applied to the query text at query time. -/
def queryTimeModel : String := chromaDefaultModel

/-- Output dimensions of the embedding models involved (external facts about
the providers: both `BAAI/bge-small-en-v1.5` and `all-MiniLM-L6-v2` produce
384-dimensional vectors). -/
def embeddingDim (model : String) : Nat :=
  if model = defaultIngestionModel then 384
  else if model = chromaDefaultModel then 384
  else 0

/-- Chroma query-time guard: the query errors iff the dimension of the query
embedding differs from the dimension of the stored vectors; if the dimensions
agree the stored nearest neighbours are returned, with no check that the
query was embedded by the same model that produced the stored vectors. -/
def chromaQueryGuard (storedModel queryModel : String) (results : List String) :
    Except String (List String) :=
  if embeddingDim queryModel ≠ embeddingDim storedModel then
    .error "InvalidDimensionException"
  else
    .ok results

/-! ## Semantic chunker

`chunk_data` delegates the actual splitting to the external
`SemanticSplitterNodeParser`; the algorithm is modelled from the spec. -/

/-- A document as ingested: an id, its raw text, and its metadata. -/
structure Document where
  id : String
  text : String
  metadata : List (String × String)
deriving DecidableEq, Repr

/-- A chunk produced by the semantic chunker. -/
structure Chunk where
  text : String
  source_document_id : String
  sequence_index : Nat
  metadata : List (String × String)
deriving DecidableEq, Repr

/-- Modelled from the spec: the Window of `2*buffer_size+1` sentences centred
at sentence `i`, clipped at the document edges, whose text is embedded to
stabilise against short-sentence noise. -/
def window (buffer_size : Nat) (ss : List String) (i : Nat) : String :=
  String.join ((ss.drop (i - buffer_size)).take (i + buffer_size + 1 - (i - buffer_size)))

/-- Modelled from the spec: the `n-1` distances between the embeddings of
consecutive Windows of the `n` sentences. -/
def pairwiseDistances {V : Type} (dist : V → V → ℚ) : List V → List ℚ
  | [] => []
  | [_] => []
  | a :: b :: rest => dist a b :: pairwiseDistances dist (b :: rest)

/-- Modelled from the spec: the `p`-th percentile of a distance distribution,
using linear interpolation between ranks (standard percentile semantics). -/
def percentileLinear (p : ℚ) (ds : List ℚ) : ℚ :=
  let sorted := ds.insertionSort (· ≤ ·)
  let n := sorted.length
  if n = 0 then 0
  else
    let rank : ℚ := p * (n - 1) / 100
    let i : Nat := rank.floor.toNat
    let frac : ℚ := rank - i
    let lo := sorted.getD i 0
    let hi := sorted.getD (min (i + 1) (n - 1)) 0
    lo + frac * (hi - lo)

/-- Modelled from the spec: a breakpoint sits after sentence `i` whenever the
distance between the windows of sentences `i` and `i+1` strictly exceeds the
threshold. -/
def breakpoints (threshold : ℚ) (ds : List ℚ) : List Nat :=
  (List.range ds.length).filter (fun i => threshold < ds.getD i 0)

/-- Splits the sentence list into the runs delimited by the breakpoints:
sentences up to and including each breakpoint index form one group, the tail
after the last breakpoint forms the final group. -/
def splitAfter {α : Type} : List α → List Nat → List (List α)
  | ss, [] => [ss]
  | ss, b :: rest =>
      ss.take (b + 1) :: splitAfter (ss.drop (b + 1)) (rest.map (fun x => x - (b + 1)))
termination_by _ bps => bps.length
decreasing_by simp

/-- Modelled from the spec: the Semantic Chunker contract
`chunk(document, embed_fn, buffer_size, breakpoint_percentile)`.  Sentence
segmentation is a pluggable capability (`segment`), the Embedding Provider is
`embed` into an abstract vector type `V`, and `dist` is the dissimilarity
(one minus cosine similarity) between window embeddings.  Sentences are
windowed, consecutive windows give the distance distribution, the percentile
threshold marks breakpoints, and the sentence runs between breakpoints become
the Chunks, numbered from 0 and inheriting the document metadata. -/
def chunk {V : Type} (doc : Document) (segment : String → List String)
    (embed : String → V) (dist : V → V → ℚ)
    (buffer_size : Nat) (breakpoint_percentile : ℚ) : List Chunk :=
  let ss := segment doc.text
  let ws := (List.range ss.length).map (window buffer_size ss)
  let ds := pairwiseDistances dist (ws.map embed)
  let threshold := percentileLinear breakpoint_percentile ds
  let bps := breakpoints threshold ds
  let groups := splitAfter ss bps
  groups.enum.map (fun g =>
    { text := String.join g.2
      source_document_id := doc.id
      sequence_index := g.1
      metadata := doc.metadata })

/-! ## Concrete fixtures for evaluating the model -/

/-- An environment with all three required variables present and non-empty. -/
def envFull : Env :=
  { deepseek_api_key := some "k"
    collection_name := some "main_database"
    persistence_dir := some "/data" }

/-- An environment whose configured collection name differs from the
collection created by the ingestion pipeline. -/
def envDocs : Env :=
  { deepseek_api_key := some "key"
    collection_name := some "documents"
    persistence_dir := some "/data" }

/-- The config that `create_config_from_env` builds from `envFull`. -/
def configMain : AppConfig :=
  { chroma := { persistence_path := "/data", collection_name := "main_database" }
    deepseek := { api_key := "k" } }

/-- The config that `create_config_from_env` builds from `envDocs`. -/
def configDocs : AppConfig :=
  { chroma := { persistence_path := "/data", collection_name := "documents" }
    deepseek := { api_key := "key" } }

/-- A Chroma store holding the ingestion collection at every path. -/
def storeMain : ChromaStore := ⟨fun _ => ["main_database"]⟩

/-- Collaborators for which both the index query and the completion call
succeed. -/
def depsOk : QueryDeps :=
  { collectionQuery := fun _ _ => .ok ["a", "b", "c"]
    chatCompletion := fun _ _ => .ok "ans" }

/-- Collaborators for which the index query raises. -/
def depsDbFail : QueryDeps :=
  { collectionQuery := fun _ _ => .error "boom"
    chatCompletion := fun _ _ => .ok "ans" }

/-- Collaborators for which the index query succeeds and the completion call
raises. -/
def depsGenFail : QueryDeps :=
  { collectionQuery := fun _ _ => .ok ["ctx"]
    chatCompletion := fun _ _ => .error "down" }

/-- A concrete request body. -/
def requestEx : QueryRequest := { user_query := "What is the capital of France?" }

/-- A one-sentence document. -/
def docEx : Document := { id := "d1", text := "Hello.", metadata := [("lang", "en")] }

/-! ## Helper lemmas -/

/-- `get_config` never returns a config: either `create_config_from_env`
raises a `ValueError`, or the `config.validate()` call raises
`AttributeError` because `AppConfig` has no such attribute. -/
lemma get_config_isError (env : Env) : ∃ e, get_config env = .error e := by
  have hmem : ¬("validate" ∈ AppConfig.attributeNames) := by decide
  unfold get_config
  cases hcreate : AppConfig.create_config_from_env env with
  | error e => exact ⟨e, rfl⟩
  | ok config =>
      exact ⟨.attributeError "AppConfig object has no attribute validate", by simp [hmem]⟩

/-- Any config produced by `create_config_from_env` carries a non-empty
collection name, because the constructor raises on empty or absent
`COLLECTION_NAME`. -/
lemma create_ok_collection_ne (env : Env) (config : AppConfig)
    (h : AppConfig.create_config_from_env env = .ok config) :
    config.chroma.collection_name ≠ "" := by
  simp only [AppConfig.create_config_from_env] at h
  split at h
  · cases h
  · split at h
    · cases h
    · split at h
      · cases h
      · rename_i hk hc hp
        cases h
        cases hcn : env.collection_name with
        | none => rw [hcn] at hc; simp [truthy] at hc
        | some s =>
            rw [hcn] at hc
            simp [truthy] at hc
            simpa [hcn] using hc

/-! ## The claims -/

/-- Claim C2: every call to `get_config` raises even when all three required
environment variables are present and non-empty — the `config.validate()`
call fails with `AttributeError` since `AppConfig` defines no `validate` —
and consequently the module-level collection initialization of
`chroma_client.py` can never succeed, for any environment and store. -/
theorem get_config_always_raises (env : Env) (store : ChromaStore)
    (hk : truthy env.deepseek_api_key = true)
    (hc : truthy env.collection_name = true)
    (hp : truthy env.persistence_dir = true) :
    get_config env =
      .error (.attributeError "AppConfig object has no attribute validate") ∧
    get_chroma_collection env store =
      .error (.attributeError "AppConfig object has no attribute validate") ∧
    ∀ (env2 : Env) (store2 : ChromaStore),
      (get_chroma_collection env2 store2).isOk = false := by
  have hmem : ¬("validate" ∈ AppConfig.attributeNames) := by decide
  have hcreate : AppConfig.create_config_from_env env =
      .ok { chroma := { persistence_path := env.persistence_dir.getD ""
                        collection_name := env.collection_name.getD "" }
            deepseek := { api_key := env.deepseek_api_key.getD "" } } := by
    unfold AppConfig.create_config_from_env
    rw [if_neg (by simp [hk]), if_neg (by simp [hc]), if_neg (by simp [hp])]
  have hcfg : get_config env =
      .error (.attributeError "AppConfig object has no attribute validate") := by
    unfold get_config
    rw [hcreate]
    simp [hmem]
  refine ⟨hcfg, ?_, ?_⟩
  · unfold get_chroma_collection
    rw [hcfg]
  · intro env2 store2
    obtain ⟨e, he⟩ := get_config_isError env2
    unfold get_chroma_collection
    rw [he]
    rfl

/-- Witness for C2 at a fully populated environment. -/
theorem get_config_always_raises_witness :
    get_config envFull =
      .error (.attributeError "AppConfig object has no attribute validate") ∧
    get_chroma_collection envFull storeMain =
      .error (.attributeError "AppConfig object has no attribute validate") ∧
    ∀ (env2 : Env) (store2 : ChromaStore),
      (get_chroma_collection env2 store2).isOk = false :=
  get_config_always_raises envFull storeMain (by decide) (by decide) (by decide)

/-- Claim C6: `create_config_from_env` raises iff at least one of the three
required values is absent or empty, and when all three are present and
non-empty it returns the configuration carrying exactly those values. -/
theorem config_loading_fail_iff (env : Env) :
    ((∃ e, AppConfig.create_config_from_env env = .error e) ↔
      ¬(truthy env.deepseek_api_key = true ∧ truthy env.collection_name = true ∧
        truthy env.persistence_dir = true)) ∧
    (∀ key coll pdir : String,
      env.deepseek_api_key = some key → env.collection_name = some coll →
      env.persistence_dir = some pdir →
      key ≠ "" → coll ≠ "" → pdir ≠ "" →
      AppConfig.create_config_from_env env =
        .ok { chroma := { persistence_path := pdir, collection_name := coll }
              deepseek := { api_key := key } }) := by
  constructor
  · unfold AppConfig.create_config_from_env
    by_cases hk : truthy env.deepseek_api_key <;>
      by_cases hc : truthy env.collection_name <;>
        by_cases hp : truthy env.persistence_dir <;>
          simp [hk, hc, hp]
  · intro key coll pdir hkey hcoll hpdir hk hc hp
    unfold AppConfig.create_config_from_env
    rw [hkey, hcoll, hpdir]
    simp [truthy, hk, hc, hp]

/-- Witness for C6 at a fully populated environment. -/
theorem config_loading_fail_iff_witness :
    ((∃ e, AppConfig.create_config_from_env envFull = .error e) ↔
      ¬(truthy envFull.deepseek_api_key = true ∧
        truthy envFull.collection_name = true ∧
        truthy envFull.persistence_dir = true)) ∧
    AppConfig.create_config_from_env envFull =
      .ok { chroma := { persistence_path := "/data",
                        collection_name := "main_database" }
            deepseek := { api_key := "k" } } :=
  ⟨(config_loading_fail_iff envFull).1,
    (config_loading_fail_iff envFull).2 "k" "main_database" "/data"
      rfl rfl rfl (by decide) (by decide) (by decide)⟩

/-- Claim C10: the debug fallback branch of `get_chroma_collection` is
unreachable for any configuration produced by `create_config_from_env`,
because that constructor raises before yielding an empty collection name. -/
theorem fallback_branch_unreachable (env : Env) (config : AppConfig)
    (h : AppConfig.create_config_from_env env = .ok config) :
    fallbackBranchTaken config = false := by
  have hne := create_ok_collection_ne env config h
  unfold fallbackBranchTaken
  simpa using hne

/-- Witness for C10 at a fully populated environment. -/
theorem fallback_branch_unreachable_witness :
    fallbackBranchTaken configMain = false :=
  fallback_branch_unreachable envFull configMain rfl

/-- Claim C3: a successful query requests exactly `n_results = 3` nearest
entries and returns a response whose `context_snippets` is exactly the list
the index returned, verbatim and in order, together with the answer and the
model name. -/
theorem query_success_contract (deps : QueryDeps) (request : QueryRequest)
    (docs : List String) (answer : String)
    (hq : deps.collectionQuery request.user_query 3 = .ok docs)
    (hg : deps.chatCompletion systemMessage (builtPrompt docs request.user_query) =
      .ok answer) :
    n_results = 3 ∧
    query_rag_system deps request =
      .ok { answer := answer, context_snippets := docs, model := "deepseek-chat" } := by
  refine ⟨rfl, ?_⟩
  unfold query_rag_system
  simp only [n_results, hq, hg]

/-- Witness for C3 on collaborators that return three snippets. -/
theorem query_success_contract_witness :
    n_results = 3 ∧
    query_rag_system depsOk requestEx =
      .ok { answer := "ans", context_snippets := ["a", "b", "c"],
            model := "deepseek-chat" } :=
  query_success_contract depsOk requestEx ["a", "b", "c"] "ans" rfl rfl

/-- Claim C4: the prompt built for the Answer Generator is a deterministic
function of the retrieved context texts and the question — byte-identical
for identical inputs — and equals the fixed template: instruction, the
context texts joined in retrieval order by a blank line, the question. -/
theorem prompt_deterministic_fixed_template (docs₁ docs₂ : List String)
    (q₁ q₂ : String) (hd : docs₁ = docs₂) (hq : q₁ = q₂) :
    builtPrompt docs₁ q₁ = builtPrompt docs₂ q₂ ∧
    builtPrompt docs₁ q₁ =
      "Use the following context to answer the user\x27s question. If the answer is not in the context, say you don\x27t know.\n\nContext:\n"
        ++ String.intercalate "\n\n" docs₁ ++ "\n\nQuestion: " ++ q₁ ++ "\n\nAnswer:" := by
  subst hd
  subst hq
  exact ⟨rfl, rfl⟩

/-- Witness for C4 on the concrete context and question named by the spec. -/
theorem prompt_deterministic_fixed_template_witness :
    builtPrompt ["Paris is the capital of France.", "The Eiffel Tower is in Paris."]
        "What is the capital of France?" =
      builtPrompt ["Paris is the capital of France.", "The Eiffel Tower is in Paris."]
        "What is the capital of France?" ∧
    builtPrompt ["Paris is the capital of France.", "The Eiffel Tower is in Paris."]
        "What is the capital of France?" =
      "Use the following context to answer the user\x27s question. If the answer is not in the context, say you don\x27t know.\n\nContext:\n"
        ++ String.intercalate "\n\n"
            ["Paris is the capital of France.", "The Eiffel Tower is in Paris."]
        ++ "\n\nQuestion: " ++ "What is the capital of France?" ++ "\n\nAnswer:" :=
  prompt_deterministic_fixed_template
    ["Paris is the capital of France.", "The Eiffel Tower is in Paris."]
    ["Paris is the capital of France.", "The Eiffel Tower is in Paris."]
    "What is the capital of France?" "What is the capital of France?" rfl rfl

/-- Claim C5: an index query failure surfaces as a 500 whose detail names the
database stage, a completion failure surfaces as a 500 whose detail names the
DeepSeek stage; in both cases no response body (hence no partial answer) is
returned, and neither error is swallowed. -/
theorem query_failures_surfaced (deps : QueryDeps) (request : QueryRequest) :
    (∀ e, deps.collectionQuery request.user_query 3 = .error e →
      query_rag_system deps request =
        .error { status_code := 500, detail := "Database error: " ++ e }) ∧
    (∀ docs e, deps.collectionQuery request.user_query 3 = .ok docs →
      deps.chatCompletion systemMessage (builtPrompt docs request.user_query) =
        .error e →
      query_rag_system deps request =
        .error { status_code := 500, detail := "DeepSeek API error: " ++ e }) := by
  constructor
  · intro e he
    unfold query_rag_system
    simp only [n_results, he]
  · intro docs e hq hg
    unfold query_rag_system
    simp only [n_results, hq, hg]

/-- Witness for C5 on collaborators that fail at each of the two stages. -/
theorem query_failures_surfaced_witness :
    query_rag_system depsDbFail requestEx =
      .error { status_code := 500, detail := "Database error: " ++ "boom" } ∧
    query_rag_system depsGenFail requestEx =
      .error { status_code := 500, detail := "DeepSeek API error: " ++ "down" } :=
  ⟨(query_failures_surfaced depsDbFail requestEx).1 "boom" rfl,
    (query_failures_surfaced depsGenFail requestEx).2 ["ctx"] "down" rfl rfl⟩

/-- Claim C1: with the default ingestion model, the model that embeds the
query at query time is *not* the ingestion model — it is the Chroma default,
because no embedding function is supplied when the collection is created or
fetched — and since both models are 384-dimensional, the query succeeds and
returns results instead of failing fast on the mismatched embedding spaces. -/
theorem query_embedding_space_mismatch_silent :
    queryTimeModel ≠ defaultIngestionModel ∧
    embeddingDim queryTimeModel = embeddingDim defaultIngestionModel ∧
    chromaQueryGuard defaultIngestionModel queryTimeModel ["snippet"] =
      .ok ["snippet"] :=
  ⟨by decide, by decide, by
    unfold chromaQueryGuard
    rw [if_neg (by decide)]⟩

/-- Counterexample to claim C7: a valid environment configures the backend to
request the collection `documents`, while the ingestion pipeline always
populates the collection `main_database`, so the collection the backend
opens is not the one ingestion populated. -/
theorem backend_collection_differs_from_ingestion :
    AppConfig.create_config_from_env envDocs = .ok configDocs ∧
    backendRequestedCollection configDocs ["documents", "main_database"] =
      some "documents" ∧
    "documents" ≠ ingestionCollectionName :=
  ⟨rfl, rfl, by decide⟩

/-- Claim C7 as amended: for any configuration the backend loads from the
environment, the collection it requests is the one the ingestion pipeline
populates iff the configured collection name is the hard-coded ingestion
collection name `main_database`. -/
theorem backend_collection_matches_iff (env : Env) (config : AppConfig)
    (available : List String)
    (h : AppConfig.create_config_from_env env = .ok config) :
    backendRequestedCollection config available = some ingestionCollectionName ↔
      config.chroma.collection_name = "main_database" := by
  have hne := create_ok_collection_ne env config h
  unfold backendRequestedCollection ingestionCollectionName
  rw [if_neg (by simpa using hne)]
  simp

/-- Witness for the amended C7 at an environment configuring `main_database`. -/
theorem backend_collection_matches_iff_witness :
    backendRequestedCollection configMain ["main_database"] =
      some ingestionCollectionName ↔
    configMain.chroma.collection_name = "main_database" :=
  backend_collection_matches_iff envFull configMain ["main_database"] rfl

/-- Counterexample to claim C8: the ingestion CLI exposes no percentile or
buffer argument — its argument inventory is exactly the five listed options —
and `chunk_data` runs the splitter with the hard-coded configuration
`buffer_size = 1`, `breakpoint_percentile_threshold = 95`, regardless of the
caller. -/
theorem ingest_accepts_no_chunking_config :
    ingestCliArgs =
      ["docs-dir", "wiki-path", "hugging-face-model", "chroma-db-path",
        "persist-dir"] ∧
    (chunk_data defaultIngestionModel).config =
      { buffer_size := 1, breakpoint_percentile_threshold := 95 } :=
  ⟨rfl, rfl⟩

/-- Claim C8 as amended: the ingestion entry point accepts a documents
directory, a Wikipedia metadata path, an embedding-model identifier, a target
index location and a persistence location — but no chunking configuration —
and for every caller-supplied model the splitter runs with the hard-coded
buffer size 1 and breakpoint percentile threshold 95. -/
theorem ingest_inputs_and_hardcoded_chunking (model : String) :
    ingestCliArgs =
      ["docs-dir", "wiki-path", "hugging-face-model", "chroma-db-path",
        "persist-dir"] ∧
    chunk_data model =
      { embed_model := model
        config := { buffer_size := 1, breakpoint_percentile_threshold := 95 } } :=
  ⟨rfl, rfl⟩

/-- Witness for the amended C8 at the default embedding model. -/
theorem ingest_inputs_and_hardcoded_chunking_witness :
    ingestCliArgs =
      ["docs-dir", "wiki-path", "hugging-face-model", "chroma-db-path",
        "persist-dir"] ∧
    chunk_data "BAAI/bge-small-en-v1.5" =
      { embed_model := "BAAI/bge-small-en-v1.5"
        config := { buffer_size := 1, breakpoint_percentile_threshold := 95 } } :=
  ingest_inputs_and_hardcoded_chunking "BAAI/bge-small-en-v1.5"

/-- Claim C9: for any document whose text segments into zero or one sentence,
the semantic chunker yields exactly one chunk spanning the whole document
text, for every embedding function, distance, buffer size and percentile. -/
theorem chunking_single_sentence {V : Type} (doc : Document)
    (segment : String → List String) (embed : String → V) (dist : V → V → ℚ)
    (buffer_size : Nat) (percentile : ℚ)
    (hlen : (segment doc.text).length ≤ 1)
    (hjoin : String.join (segment doc.text) = doc.text) :
    chunk doc segment embed dist buffer_size percentile =
      [{ text := doc.text, source_document_id := doc.id,
         sequence_index := 0, metadata := doc.metadata }] := by
  unfold chunk
  cases hss : segment doc.text with
  | nil =>
      rw [hss] at hjoin
      simp [pairwiseDistances, breakpoints, splitAfter, hjoin]
  | cons s tail =>
      cases tail with
      | nil =>
          rw [hss] at hjoin
          simp [pairwiseDistances, breakpoints, splitAfter, hjoin]
      | cons b rest =>
          rw [hss] at hlen
          simp at hlen

/-- Witness for C9 on a concrete one-sentence document. -/
theorem chunking_single_sentence_witness :
    chunk docEx (fun t => [t]) (fun _ => (0 : ℚ)) (fun _ _ => (0 : ℚ)) 1 95 =
      [{ text := "Hello.", source_document_id := "d1",
         sequence_index := 0, metadata := [("lang", "en")] }] :=
  chunking_single_sentence docEx (fun t => [t]) (fun _ => (0 : ℚ))
    (fun _ _ => (0 : ℚ)) 1 95 (by simp) (by simp [String.join])

end RagAI
